import Mathlib

/-!
# Verification of the Gmail rules engine (`src/rules_engine.py`)

A shallow embedding of `RulesEngine` from `rules_engine.py`.  Instants
(`datetime` values) are modelled as integer seconds since the epoch, so that
Python's `(now - email_date).days` becomes floor division of the difference by
86400 (`timedelta` normalises with `0 <= seconds < 86400`, so `.days` is the
floor).  Python exceptions are modelled with `Except PyError`; the engine can
raise `ValueError` on unknown combinators / fields / predicates / units, and an
`AttributeError` when `.lower()` is applied to an absent (`None`) field value.

`datetime.utcnow()` is called inside `_check_date_condition`, i.e. once per
date-condition check that reaches it.  We model the ambient clock as a function
`clock : Nat → Int` from the index of the read (how many reads happened before)
to the instant returned, threading the read counter through evaluation; a run
whose clock never advances corresponds to a constant clock function.
-/

namespace GmailRules

/-- The Python exceptions relevant to the engine: `ValueError` raised
explicitly by the engine, and `AttributeError` from calling `.lower()` on
`None`. -/
inductive PyError where
  | valueError : String → PyError
  | attributeError : String → PyError
deriving DecidableEq, Repr

/-- The subset of the `Email` ORM row (`db.py`) that the rules engine reads.
`from_address`, `to_address`, `subject` and `received_date` are nullable
columns, hence `Option`; `body_text` is explicitly `nullable=True`.
`received_date` is seconds since the epoch. -/
structure Email where
  id : Int
  from_address : Option String
  to_address : Option String
  subject : Option String
  body_text : Option String
  received_date : Option Int
deriving DecidableEq, Repr

/-- A condition dictionary of the rules JSON: `field`, `predicate`, `value`,
and the optional `unit` key (absent key modelled as `none`;
`condition.get('unit', 'days')` becomes `unit.getD "days"`). -/
structure Condition where
  field : String
  predicate : String
  value : String
  unit : Option String
deriving DecidableEq, Repr

/-- An action dictionary.  The engine itself never inspects actions, it only
copies them into the result; `type` and the optional destination label follow
`actions.py`. -/
structure Action where
  type : String
  destination : Option String
deriving DecidableEq, Repr

/-- A rule dictionary: `id`, the combinator stored under the `predicate` key,
`conditions` and `actions`. -/
structure Rule where
  id : String
  predicate : String
  conditions : List Condition
  actions : List Action
deriving DecidableEq, Repr

deriving instance DecidableEq for Except

/-- Python `str.lower()` (restricted to ASCII case mapping, which covers every
string the claims exercise). -/
def lowerStr (s : String) : String := String.mk (s.data.map Char.toLower)

/-- Test `startsList needle hay`: `needle` is an initial segment of `hay`. -/
def startsList : List Char → List Char → Bool
  | [], _ => true
  | _ :: _, [] => false
  | a :: as, b :: bs => a = b && startsList as bs

/-- Test `subList needle hay`: `needle` occurs contiguously inside `hay`
(Python's `needle in hay` on strings; the empty needle always occurs). -/
def subList (needle : List Char) : List Char → Bool
  | [] => startsList needle []
  | c :: t => startsList needle (c :: t) || subList needle t

/-- Python's `in` operator on strings: `pyIn needle hay = (needle in hay)`. -/
def pyIn (needle hay : String) : Bool := subList needle.data hay.data

/-- Digit run of a Python integer literal: `digit (("_")? digit)*`,
accumulating the value.  A trailing underscore or a double underscore is
rejected, as in `int()`. -/
def pyDigits : Nat → List Char → Option Nat
  | acc, [] => some acc
  | acc, c :: rest =>
    if c.isDigit then pyDigits (10 * acc + (c.toNat - 48)) rest
    else if c = '_' then
      match rest with
      | [] => none
      | d :: rest' =>
        if d.isDigit then pyDigits (10 * acc + (d.toNat - 48)) rest' else none
    else none

/-- Body of `int()` after whitespace stripping: an optional sign followed by a
digit run that must start with a digit. -/
def pyIntChars : List Char → Option Int
  | [] => none
  | '+' :: rest =>
    match rest with
    | [] => none
    | d :: _ => if d.isDigit then (pyDigits 0 rest).map Int.ofNat else none
  | '-' :: rest =>
    match rest with
    | [] => none
    | d :: _ => if d.isDigit then (pyDigits 0 rest).map (fun n => -(Int.ofNat n)) else none
  | d :: rest =>
    if d.isDigit then (pyDigits 0 (d :: rest)).map Int.ofNat else none

/-- Python `int(value)` on a string: strip surrounding whitespace, then an
optional sign and an underscore-grouped digit run; `none` models the
`ValueError` that the engine catches (`except ValueError: return False`). -/
def pyInt? (s : String) : Option Int :=
  pyIntChars (((s.data.dropWhile Char.isWhitespace).reverse.dropWhile
    Char.isWhitespace).reverse)

/-- Embedding of `RulesEngine._check_date_condition` (lines 153-191).  `clock k` is the
value `datetime.utcnow()` returns for the `k`-th clock read of the run; the
returned counter records how many reads have happened.  The two early
`return False` branches (absent `email_date`, unparsable `value`) happen
*before* the clock is read. -/
def check_date_condition (clock : Nat → Int) (k : Nat) (pred value unit : String)
    (email_date : Option Int) : Except PyError (Bool × Nat) :=
  match email_date with
  | none => .ok (false, k)
  | some d =>
    match pyInt? value with
    | none => .ok (false, k)
    | some v =>
      let now := clock k
      if unit = "days" then
        let time_diff := Int.fdiv (now - d) 86400
        if pred = "less_than" then .ok (decide (time_diff < v), k + 1)
        else if pred = "greater_than" then .ok (decide (time_diff > v), k + 1)
        else .error (.valueError ("Unknown date predicate: " ++ pred))
      else if unit = "months" then
        let time_diff := Int.fdiv (Int.fdiv (now - d) 86400) 30
        if pred = "less_than" then .ok (decide (time_diff < v), k + 1)
        else if pred = "greater_than" then .ok (decide (time_diff > v), k + 1)
        else .error (.valueError ("Unknown date predicate: " ++ pred))
      else .error (.valueError ("Unknown unit: " ++ unit))

/-- The string-predicate block of `_condition_matches` (lines 142-151).
`field_value = none` models a `None` field; `.lower()` is only applied inside
the branch of a recognised predicate, so an unknown predicate raises
`ValueError` even when the field value is absent, while a recognised predicate
on an absent value raises `AttributeError`. -/
def string_predicate (pred value : String) (field_value : Option String) :
    Except PyError Bool :=
  if pred = "contains" then
    match field_value with
    | none => .error (.attributeError "NoneType object has no attribute lower")
    | some fv => .ok (pyIn (lowerStr value) (lowerStr fv))
  else if pred = "does_not_contain" then
    match field_value with
    | none => .error (.attributeError "NoneType object has no attribute lower")
    | some fv => .ok (!(pyIn (lowerStr value) (lowerStr fv)))
  else if pred = "equals" then
    match field_value with
    | none => .error (.attributeError "NoneType object has no attribute lower")
    | some fv => .ok (lowerStr value == lowerStr fv)
  else if pred = "does_not_equal" then
    match field_value with
    | none => .error (.attributeError "NoneType object has no attribute lower")
    | some fv => .ok (!(lowerStr value == lowerStr fv))
  else .error (.valueError ("Unknown predicate: " ++ pred))

/-- Embedding of `RulesEngine._condition_matches` (lines 112-151): lower-case the field and
predicate names, dispatch on the field (`message` substitutes `""` for an
absent body via `or ""`; `received_date` delegates to the date comparator with
`condition.get('unit', 'days')`), then apply the string predicate. -/
def condition_matches (clock : Nat → Int) (k : Nat) (cond : Condition)
    (email : Email) : Except PyError (Bool × Nat) :=
  let field := lowerStr cond.field
  let pred := lowerStr cond.predicate
  if field = "from" then
    (string_predicate pred cond.value email.from_address).map (fun b => (b, k))
  else if field = "to" then
    (string_predicate pred cond.value email.to_address).map (fun b => (b, k))
  else if field = "subject" then
    (string_predicate pred cond.value email.subject).map (fun b => (b, k))
  else if field = "message" then
    (string_predicate pred cond.value (some (email.body_text.getD ""))).map
      (fun b => (b, k))
  else if field = "received_date" then
    check_date_condition clock k pred cond.value (cond.unit.getD "days")
      email.received_date
  else .error (.valueError ("Unknown field: " ++ field))

/-- Python's `all(...)` over a generator of condition checks: stops at the
first `False` (later conditions are then never evaluated) and propagates the
first exception. -/
def all_conditions (clock : Nat → Int) (email : Email) :
    List Condition → Nat → Except PyError (Bool × Nat)
  | [], k => .ok (true, k)
  | c :: cs, k =>
    match condition_matches clock k c email with
    | .error e => .error e
    | .ok (true, k') => all_conditions clock email cs k'
    | .ok (false, k') => .ok (false, k')

/-- Python's `any(...)` over a generator of condition checks: stops at the
first `True`. -/
def any_conditions (clock : Nat → Int) (email : Email) :
    List Condition → Nat → Except PyError (Bool × Nat)
  | [], k => .ok (false, k)
  | c :: cs, k =>
    match condition_matches clock k c email with
    | .error e => .error e
    | .ok (true, k') => .ok (true, k')
    | .ok (false, k') => any_conditions clock email cs k'

/-- Embedding of `RulesEngine._rule_applies` (lines 88-110).  The combinator, stored under
the rule's `predicate` key, is *not* lower-cased. -/
def rule_applies (clock : Nat → Int) (k : Nat) (rule : Rule) (email : Email) :
    Except PyError (Bool × Nat) :=
  if rule.predicate = "all" then all_conditions clock email rule.conditions k
  else if rule.predicate = "any" then any_conditions clock email rule.conditions k
  else .error (.valueError ("Unknown predicate: " ++ rule.predicate))

/-- The inner rule loop of `evaluate_emails` (lines 71-81): the
`applicable_actions` list built for one email, one `(action, rule_id)` pair per
action of each rule that applies, in rule order then action order. -/
def collect_actions (clock : Nat → Int) (email : Email) :
    List Rule → Nat → Except PyError (List (Action × String) × Nat)
  | [], k => .ok ([], k)
  | r :: rs, k =>
    match rule_applies clock k r email with
    | .error e => .error e
    | .ok (b, k') =>
      match collect_actions clock email rs k' with
      | .error e => .error e
      | .ok (l, k'') =>
        .ok ((if b then r.actions.map (fun a => (a, r.id)) else []) ++ l, k'')

/-- The outer email loop of `evaluate_emails` (lines 68-86): the `results`
dict, modelled as an association list in insertion order (email ids are
primary keys, hence distinct); an email whose `applicable_actions` list is
empty is not inserted. -/
def evaluate_loop (clock : Nat → Int) (rules : List Rule) :
    List Email → Nat → Except PyError (List (Int × List (Action × String)) × Nat)
  | [], k => .ok ([], k)
  | e :: es, k =>
    match collect_actions clock e rules k with
    | .error err => .error err
    | .ok (acts, k') =>
      match evaluate_loop clock rules es k' with
      | .error err => .error err
      | .ok (plan, k'') =>
        .ok ((if acts.isEmpty then plan else (e.id, acts) :: plan), k'')

/-- The email selection of `evaluate_emails` (lines 48-54): `if email_ids:` is
Python truthiness, so both `None` and the empty list skip the
`Email.id.in_(email_ids)` filter and every stored email is taken (in store
order). -/
def select_emails (email_ids : Option (List Int)) (db : List Email) : List Email :=
  match email_ids with
  | none => db
  | some ids => if ids.isEmpty then db else db.filter (fun e => ids.contains e.id)

/-- Embedding of `RulesEngine.evaluate_emails` (lines 34-86), with the database contents and
the ambient clock as explicit inputs; the run starts with zero clock reads. -/
def evaluate_emails (clock : Nat → Int) (rules : List Rule)
    (email_ids : Option (List Int)) (db : List Email) :
    Except PyError (List (Int × List (Action × String)) × Nat) :=
  evaluate_loop clock rules (select_emails email_ids db) 0

/-- The sequence of per-rule match outcomes for one email: `rule_applies` run
over the rule list in order, threading the clock-read counter exactly as the
inner loop of `evaluate_emails` does. -/
def match_outcomes (clock : Nat → Int) (email : Email) :
    List Rule → Nat → Except PyError (List Bool × Nat)
  | [], k => .ok ([], k)
  | r :: rs, k =>
    match rule_applies clock k r email with
    | .error e => .error e
    | .ok (b, k') =>
      match match_outcomes clock email rs k' with
      | .error e => .error e
      | .ok (bs, k'') => .ok (b :: bs, k'')

/-- The per-email `applicable_actions` lists for a list of emails, threading
the clock-read counter exactly as the outer loop of `evaluate_emails` does. -/
def collect_all (clock : Nat → Int) (rules : List Rule) :
    List Email → Nat → Except PyError (List (List (Action × String)) × Nat)
  | [], k => .ok ([], k)
  | e :: es, k =>
    match collect_actions clock e rules k with
    | .error err => .error err
    | .ok (acts, k') =>
      match collect_all clock rules es k' with
      | .error err => .error err
      | .ok (ls, k'') => .ok (acts :: ls, k'')

/-!
## Single-instant evaluator

Modelled from the spec: `§4.1` requires `now` to be "capture[d] once per
evaluation run so all messages in one call are compared against the same
instant".  The functions below mirror the engine with the instant `now`
threaded as an explicit parameter and read nowhere else; they are the
reference point for comparing the engine's actual per-check clock reads
against the spec's once-per-run semantics.
-/

/-- Modelled from the spec: the date comparator `check(predicate, value, unit,
received_at, now)` of `§4.4`, with `now` an explicit parameter instead of an
ambient clock read. -/
def check_date_at (now : Int) (pred value unit : String)
    (email_date : Option Int) : Except PyError Bool :=
  match email_date with
  | none => .ok false
  | some d =>
    match pyInt? value with
    | none => .ok false
    | some v =>
      if unit = "days" then
        let time_diff := Int.fdiv (now - d) 86400
        if pred = "less_than" then .ok (decide (time_diff < v))
        else if pred = "greater_than" then .ok (decide (time_diff > v))
        else .error (.valueError ("Unknown date predicate: " ++ pred))
      else if unit = "months" then
        let time_diff := Int.fdiv (Int.fdiv (now - d) 86400) 30
        if pred = "less_than" then .ok (decide (time_diff < v))
        else if pred = "greater_than" then .ok (decide (time_diff > v))
        else .error (.valueError ("Unknown date predicate: " ++ pred))
      else .error (.valueError ("Unknown unit: " ++ unit))

/-- Modelled from the spec: condition matching against a single captured
instant. -/
def condition_matches_at (now : Int) (cond : Condition) (email : Email) :
    Except PyError Bool :=
  let field := lowerStr cond.field
  let pred := lowerStr cond.predicate
  if field = "from" then string_predicate pred cond.value email.from_address
  else if field = "to" then string_predicate pred cond.value email.to_address
  else if field = "subject" then string_predicate pred cond.value email.subject
  else if field = "message" then
    string_predicate pred cond.value (some (email.body_text.getD ""))
  else if field = "received_date" then
    check_date_at now pred cond.value (cond.unit.getD "days") email.received_date
  else .error (.valueError ("Unknown field: " ++ field))

/-- Modelled from the spec: `all` over conditions against a single captured
instant, short-circuiting at the first `false`. -/
def all_conditions_at (now : Int) (email : Email) :
    List Condition → Except PyError Bool
  | [] => .ok true
  | c :: cs =>
    match condition_matches_at now c email with
    | .error e => .error e
    | .ok true => all_conditions_at now email cs
    | .ok false => .ok false

/-- Modelled from the spec: `any` over conditions against a single captured
instant, short-circuiting at the first `true`. -/
def any_conditions_at (now : Int) (email : Email) :
    List Condition → Except PyError Bool
  | [] => .ok false
  | c :: cs =>
    match condition_matches_at now c email with
    | .error e => .error e
    | .ok true => .ok true
    | .ok false => any_conditions_at now email cs

/-- Modelled from the spec: rule matching against a single captured instant. -/
def rule_applies_at (now : Int) (rule : Rule) (email : Email) :
    Except PyError Bool :=
  if rule.predicate = "all" then all_conditions_at now email rule.conditions
  else if rule.predicate = "any" then any_conditions_at now email rule.conditions
  else .error (.valueError ("Unknown predicate: " ++ rule.predicate))

/-- Modelled from the spec: the `applicable_actions` list for one email
against a single captured instant. -/
def collect_actions_at (now : Int) (email : Email) :
    List Rule → Except PyError (List (Action × String))
  | [] => .ok []
  | r :: rs =>
    match rule_applies_at now r email with
    | .error e => .error e
    | .ok b =>
      match collect_actions_at now email rs with
      | .error e => .error e
      | .ok l => .ok ((if b then r.actions.map (fun a => (a, r.id)) else []) ++ l)

/-- Modelled from the spec: the whole action plan against a single captured
instant. -/
def evaluate_loop_at (now : Int) (rules : List Rule) :
    List Email → Except PyError (List (Int × List (Action × String)))
  | [] => .ok []
  | e :: es =>
    match collect_actions_at now e rules with
    | .error err => .error err
    | .ok acts =>
      match evaluate_loop_at now rules es with
      | .error err => .error err
      | .ok plan => .ok (if acts.isEmpty then plan else (e.id, acts) :: plan)

/-- Modelled from the spec: `evaluate_emails` with `now` captured once for the
whole run. -/
def evaluate_emails_at (now : Int) (rules : List Rule)
    (email_ids : Option (List Int)) (db : List Email) :
    Except PyError (List (Int × List (Action × String))) :=
  evaluate_loop_at now rules (select_emails email_ids db)

/-!
## Constant-clock refinement lemmas

When the ambient clock is the constant function `fun _ => t` (the clock does
not advance during the run), every engine function computes the same answer as
its single-instant counterpart at `t`, with some final read counter.
-/

lemma check_date_const (t : Int) (k : Nat) (p v u : String) (d : Option Int) :
    ∃ k', check_date_condition (fun _ => t) k p v u d =
      (check_date_at t p v u d).map (fun b => (b, k')) := by
  cases d with
  | none => exact ⟨k, rfl⟩
  | some d0 =>
    cases h : pyInt? v with
    | none => exact ⟨k, by simp [check_date_condition, check_date_at, h, Except.map]⟩
    | some n =>
      refine ⟨k + 1, ?_⟩
      simp only [check_date_condition, check_date_at, h]
      split_ifs <;> rfl

lemma condition_matches_const (t : Int) (k : Nat) (cond : Condition)
    (email : Email) :
    ∃ k', condition_matches (fun _ => t) k cond email =
      (condition_matches_at t cond email).map (fun b => (b, k')) := by
  unfold condition_matches condition_matches_at
  dsimp only
  split_ifs with h1 h2 h3 h4 h5
  · exact ⟨k, rfl⟩
  · exact ⟨k, rfl⟩
  · exact ⟨k, rfl⟩
  · exact ⟨k, rfl⟩
  · exact check_date_const t k (lowerStr cond.predicate) cond.value
      (cond.unit.getD "days") email.received_date
  · exact ⟨k, rfl⟩

lemma all_conditions_const (t : Int) (email : Email) :
    ∀ (cs : List Condition) (k : Nat),
      ∃ k', all_conditions (fun _ => t) email cs k =
        (all_conditions_at t email cs).map (fun b => (b, k')) := by
  intro cs
  induction cs with
  | nil => intro k; exact ⟨k, rfl⟩
  | cons c cs ih =>
    intro k
    obtain ⟨k1, h1⟩ := condition_matches_const t k c email
    cases hc : condition_matches_at t c email with
    | error e =>
      exact ⟨k1, by simp [all_conditions, all_conditions_at, h1, hc, Except.map]⟩
    | ok b =>
      cases b with
      | false =>
        exact ⟨k1, by simp [all_conditions, all_conditions_at, h1, hc, Except.map]⟩
      | true =>
        obtain ⟨k2, h2⟩ := ih k1
        exact ⟨k2, by simp [all_conditions, all_conditions_at, h1, hc, h2, Except.map]⟩

lemma any_conditions_const (t : Int) (email : Email) :
    ∀ (cs : List Condition) (k : Nat),
      ∃ k', any_conditions (fun _ => t) email cs k =
        (any_conditions_at t email cs).map (fun b => (b, k')) := by
  intro cs
  induction cs with
  | nil => intro k; exact ⟨k, rfl⟩
  | cons c cs ih =>
    intro k
    obtain ⟨k1, h1⟩ := condition_matches_const t k c email
    cases hc : condition_matches_at t c email with
    | error e =>
      exact ⟨k1, by simp [any_conditions, any_conditions_at, h1, hc, Except.map]⟩
    | ok b =>
      cases b with
      | true =>
        exact ⟨k1, by simp [any_conditions, any_conditions_at, h1, hc, Except.map]⟩
      | false =>
        obtain ⟨k2, h2⟩ := ih k1
        exact ⟨k2, by simp [any_conditions, any_conditions_at, h1, hc, h2, Except.map]⟩

lemma rule_applies_const (t : Int) (k : Nat) (rule : Rule) (email : Email) :
    ∃ k', rule_applies (fun _ => t) k rule email =
      (rule_applies_at t rule email).map (fun b => (b, k')) := by
  unfold rule_applies rule_applies_at
  split_ifs with h1 h2
  · exact all_conditions_const t email rule.conditions k
  · exact any_conditions_const t email rule.conditions k
  · exact ⟨k, rfl⟩

lemma collect_actions_const (t : Int) (email : Email) :
    ∀ (rules : List Rule) (k : Nat),
      ∃ k', collect_actions (fun _ => t) email rules k =
        (collect_actions_at t email rules).map (fun l => (l, k')) := by
  intro rules
  induction rules with
  | nil => intro k; exact ⟨k, rfl⟩
  | cons r rs ih =>
    intro k
    obtain ⟨k1, h1⟩ := rule_applies_const t k r email
    cases hr : rule_applies_at t r email with
    | error e =>
      exact ⟨k1, by simp [collect_actions, collect_actions_at, h1, hr, Except.map]⟩
    | ok b =>
      obtain ⟨k2, h2⟩ := ih k1
      cases hrec : collect_actions_at t email rs with
      | error e =>
        refine ⟨k2, ?_⟩
        simp [collect_actions, collect_actions_at, h1, hr, h2, hrec, Except.map]
      | ok l =>
        refine ⟨k2, ?_⟩
        simp [collect_actions, collect_actions_at, h1, hr, h2, hrec, Except.map]

lemma evaluate_loop_const (t : Int) (rules : List Rule) :
    ∀ (emails : List Email) (k : Nat),
      ∃ k', evaluate_loop (fun _ => t) rules emails k =
        (evaluate_loop_at t rules emails).map (fun plan => (plan, k')) := by
  intro emails
  induction emails with
  | nil => intro k; exact ⟨k, rfl⟩
  | cons e es ih =>
    intro k
    obtain ⟨k1, h1⟩ := collect_actions_const t e rules k
    cases hc : collect_actions_at t e rules with
    | error err =>
      exact ⟨k1, by simp [evaluate_loop, evaluate_loop_at, h1, hc, Except.map]⟩
    | ok acts =>
      obtain ⟨k2, h2⟩ := ih k1
      cases hrec : evaluate_loop_at t rules es with
      | error err =>
        refine ⟨k2, ?_⟩
        simp [evaluate_loop, evaluate_loop_at, h1, hc, h2, hrec, Except.map]
      | ok plan =>
        refine ⟨k2, ?_⟩
        simp [evaluate_loop, evaluate_loop_at, h1, hc, h2, hrec, Except.map]

/-!
## Structural characterisations of the evaluation loops
-/

lemma evaluate_loop_plan (clock : Nat → Int) (rules : List Rule) :
    ∀ (emails : List Email) (k k' : Nat)
      (plan : List (Int × List (Action × String))),
      evaluate_loop clock rules emails k = .ok (plan, k') →
      ∃ ls, collect_all clock rules emails k = .ok (ls, k') ∧
        plan = ((emails.zip ls).filter (fun p => !p.2.isEmpty)).map
          (fun p => (p.1.id, p.2)) := by
  intro emails
  induction emails with
  | nil =>
    intro k k' plan h
    simp only [evaluate_loop, Except.ok.injEq, Prod.mk.injEq] at h
    exact ⟨[], by simp [collect_all, h.1, h.2], by simp [h.1]⟩
  | cons e es ih =>
    intro k k' plan h
    rw [evaluate_loop] at h
    cases hca : collect_actions clock e rules k with
    | error err => simp [hca] at h
    | ok p =>
      obtain ⟨acts, k1⟩ := p
      cases hrec : evaluate_loop clock rules es k1 with
      | error err => simp [hca, hrec] at h
      | ok q =>
        obtain ⟨planRest, k2⟩ := q
        simp only [hca, hrec, Except.ok.injEq, Prod.mk.injEq] at h
        obtain ⟨ls, hls, hplanRest⟩ := ih k1 k2 planRest hrec
        refine ⟨acts :: ls, ?_, ?_⟩
        · simp [collect_all, hca, hls, h.2]
        · rw [← h.1, hplanRest]
          cases hae : acts.isEmpty with
          | true =>
            simp only [hae, if_true, List.zip_cons_cons, List.filter_cons,
              Bool.not_true, Bool.not_false]
            simp
          | false =>
            simp only [hae, if_false, List.zip_cons_cons, List.filter_cons,
              Bool.not_true, Bool.not_false]
            simp

lemma collect_actions_outcomes (clock : Nat → Int) (email : Email) :
    ∀ (rules : List Rule) (k k' : Nat) (acts : List (Action × String)),
      collect_actions clock email rules k = .ok (acts, k') →
      ∃ bs, match_outcomes clock email rules k = .ok (bs, k') ∧
        acts = (rules.zip bs).flatMap
          (fun p => if p.2 then p.1.actions.map (fun a => (a, p.1.id)) else []) := by
  intro rules
  induction rules with
  | nil =>
    intro k k' acts h
    simp only [collect_actions, Except.ok.injEq, Prod.mk.injEq] at h
    exact ⟨[], by simp [match_outcomes, h.2], by simp [← h.1]⟩
  | cons r rs ih =>
    intro k k' acts h
    rw [collect_actions] at h
    cases hra : rule_applies clock k r email with
    | error e => simp [hra] at h
    | ok p =>
      obtain ⟨b, k1⟩ := p
      cases hrec : collect_actions clock email rs k1 with
      | error e => simp [hra, hrec] at h
      | ok q =>
        obtain ⟨l, k2⟩ := q
        simp only [hra, hrec, Except.ok.injEq, Prod.mk.injEq] at h
        obtain ⟨bs, hbs, hl⟩ := ih k1 k2 l hrec
        refine ⟨b :: bs, ?_, ?_⟩
        · simp [match_outcomes, hra, hbs, h.2]
        · rw [← h.1, hl]
          simp [List.zip_cons_cons, List.flatMap_cons]

/-!
## Claims
-/

/-- Claim C1, counterexample: `now` is *not* captured once per
`evaluate_emails` run — `datetime.utcnow()` is read inside every date-condition
check that reaches it, so the result of one call can depend on the clock
advancing between individual condition checks.  Two runs whose clocks agree at
the first read (the instant the call starts) but differ at the second read
produce different action plans for the same rule set and messages: a rule
`any [received_date greater_than 1 day, received_date less_than 1 day]` on a
message received at instant 0 matches when the clock stays at 0, and fails to
match when the clock has advanced to 172800 (two days) by the second check. -/
theorem claim_C1_counterexample :
    (fun _ : Nat => (0 : Int)) 0 = (fun k : Nat => if k = 0 then (0 : Int) else 172800) 0 ∧
    evaluate_emails (fun _ => 0)
        [⟨"R1", "any", [⟨"received_date", "greater_than", "1", none⟩,
            ⟨"received_date", "less_than", "1", none⟩],
          [⟨"mark_as_read", none⟩]⟩]
        none [⟨1, none, none, none, none, some 0⟩] =
      .ok ([(1, [(⟨"mark_as_read", none⟩, "R1")])], 2) ∧
    evaluate_emails (fun k => if k = 0 then 0 else 172800)
        [⟨"R1", "any", [⟨"received_date", "greater_than", "1", none⟩,
            ⟨"received_date", "less_than", "1", none⟩],
          [⟨"mark_as_read", none⟩]⟩]
        none [⟨1, none, none, none, none, some 0⟩] =
      .ok ([], 2) := by
  refine ⟨rfl, ?_, ?_⟩ <;> decide

/-- Claim C2, counterexample: a message identifier appearing as a key of the
ActionPlan is *not* equivalent to at least one rule matching the message.  A
rule with combinator `all`, an empty condition list and an empty action list
matches every message (`rule_applies` returns `true`), yet the evaluated
message contributes no `(action, rule_id)` pairs, so its identifier is absent
from the returned mapping. -/
theorem claim_C2_counterexample :
    rule_applies (fun _ => 0) 0 ⟨"R1", "all", [], []⟩
        ⟨1, none, none, none, none, none⟩ = .ok (true, 0) ∧
    evaluate_emails (fun _ => 0) [⟨"R1", "all", [], []⟩] none
        [⟨1, none, none, none, none, none⟩] = .ok ([], 0) := by
  exact ⟨rfl, rfl⟩

/-- Claim C2, amended: a message identifier appears as a key of the ActionPlan
returned by `evaluate_emails` if and only if the `applicable_actions` list
collected for that message is non-empty, i.e. at least one matching rule
contributed at least one action.  A message with zero matching rules — or
whose matching rules all have empty action lists — is absent from the mapping,
and no key is ever present with an empty action list: the plan is exactly the
per-message collected lists, keeping the non-empty ones. -/
theorem claim_C2_amended (clock : Nat → Int) (rules : List Rule)
    (ids : Option (List Int)) (db : List Email) (k' : Nat)
    (plan : List (Int × List (Action × String)))
    (h : evaluate_emails clock rules ids db = .ok (plan, k')) :
    (∃ ls, collect_all clock rules (select_emails ids db) 0 = .ok (ls, k') ∧
      plan = (((select_emails ids db).zip ls).filter
          (fun p => !p.2.isEmpty)).map (fun p => (p.1.id, p.2))) ∧
    ∀ p ∈ plan, p.2 ≠ [] := by
  obtain ⟨ls, hls, hplan⟩ :=
    evaluate_loop_plan clock rules (select_emails ids db) 0 k' plan h
  refine ⟨⟨ls, hls, hplan⟩, ?_⟩
  intro p hp
  subst hplan
  simp only [List.mem_map, List.mem_filter, Bool.not_eq_true'] at hp
  obtain ⟨q, ⟨_, hq2⟩, hq3⟩ := hp
  intro hnil
  rw [← hq3] at hnil
  simp only [List.isEmpty_eq_false] at hq2
  exact hq2 hnil

/-- Claim C2, witness: the amended claim applied to one always-matching rule
with one action against a single stored message. -/
theorem claim_C2_witness :
    (∃ ls, collect_all (fun _ => 0)
        [⟨"R1", "all", [], [⟨"mark_as_read", none⟩]⟩]
        (select_emails none [⟨1, none, none, none, none, none⟩]) 0 =
          .ok (ls, 0) ∧
      [((1 : Int), [((⟨"mark_as_read", none⟩ : Action), "R1")])] =
        (((select_emails none [⟨1, none, none, none, none, none⟩]).zip ls).filter
            (fun p => !p.2.isEmpty)).map (fun p => (p.1.id, p.2))) ∧
    ∀ p ∈ [((1 : Int), [((⟨"mark_as_read", none⟩ : Action), "R1")])],
      p.2 ≠ [] :=
  claim_C2_amended (fun _ => 0) [⟨"R1", "all", [], [⟨"mark_as_read", none⟩]⟩]
    none [⟨1, none, none, none, none, none⟩] 0
    [(1, [(⟨"mark_as_read", none⟩, "R1")])] (by decide)

/-- Claim C4 (confirmed): for every message, the `applicable_actions` list
that becomes the message's ActionPlan entry lists one `(action, rule_id)` pair
per action of every matching rule — in rule-set order, within a rule in the
rule's action order, each pair tagged with the identifier of the rule that
contributed it: the list is exactly the concatenation, over the rules in
order, of the matched rules' action lists paired with their rule ids. -/
theorem claim_C4 (clock : Nat → Int) (email : Email) (rules : List Rule)
    (k k' : Nat) (acts : List (Action × String))
    (h : collect_actions clock email rules k = .ok (acts, k')) :
    ∃ bs, match_outcomes clock email rules k = .ok (bs, k') ∧
      acts = (rules.zip bs).flatMap
        (fun p => if p.2 then p.1.actions.map (fun a => (a, p.1.id)) else []) :=
  collect_actions_outcomes clock email rules k k' acts h

/-- Claim C4, witness: the spec's end-to-end scenario — two rules that both
match the same message produce both rules' actions in rule-list order (the
first rule contributing its two actions in their order), each pair tagged with
its own rule identifier. -/
theorem claim_C4_witness :
    ∃ bs, match_outcomes (fun _ => 0) ⟨1, none, none, none, none, none⟩
        [⟨"R1", "all", [], [⟨"mark_as_read", none⟩,
            ⟨"move_message", some "Archive"⟩]⟩,
          ⟨"R2", "all", [], [⟨"mark_as_unread", none⟩]⟩] 0 = .ok (bs, 0) ∧
      [((⟨"mark_as_read", none⟩ : Action), "R1"),
        (⟨"move_message", some "Archive"⟩, "R1"),
        (⟨"mark_as_unread", none⟩, "R2")] =
      ([(⟨"R1", "all", [], [⟨"mark_as_read", none⟩,
            ⟨"move_message", some "Archive"⟩]⟩ : Rule),
          ⟨"R2", "all", [], [⟨"mark_as_unread", none⟩]⟩].zip bs).flatMap
        (fun p => if p.2 then p.1.actions.map (fun a => (a, p.1.id)) else []) :=
  claim_C4 (fun _ => 0) ⟨1, none, none, none, none, none⟩
    [⟨"R1", "all", [], [⟨"mark_as_read", none⟩,
        ⟨"move_message", some "Archive"⟩]⟩,
      ⟨"R2", "all", [], [⟨"mark_as_unread", none⟩]⟩] 0 0
    [(⟨"mark_as_read", none⟩, "R1"), (⟨"move_message", some "Archive"⟩, "R1"),
      (⟨"mark_as_unread", none⟩, "R2")] (by decide)

/-- Claim C5 (confirmed): for every date condition, if the message's
`received_date` is absent the condition evaluates to false for every
predicate, value and unit, reading no clock and raising no error; and if the
condition's comparison value does not parse as an integer, the condition
evaluates to false for every predicate and unit, likewise without error. -/
theorem claim_C5 :
    (∀ (clock : Nat → Int) (k : Nat) (p v : String) (u : Option String)
        (i : Int) (f t s b : Option String),
      condition_matches clock k ⟨"received_date", p, v, u⟩ ⟨i, f, t, s, b, none⟩ =
        .ok (false, k)) ∧
    (∀ (clock : Nat → Int) (k : Nat) (p v u : String) (d : Int),
      pyInt? v = none →
      check_date_condition clock k p v u (some d) = .ok (false, k)) := by
  constructor
  · intro clock k p v u i f t s b
    rfl
  · intro clock k p v u d hv
    unfold check_date_condition
    rw [hv]

/-- Claim C5, witness: a `less_than` condition on an email without a
`received_date`, and a date comparator call whose value `"abc"` does not parse
as an integer, both evaluate to false without error. -/
theorem claim_C5_witness :
    condition_matches (fun _ => 0) 0 ⟨"received_date", "less_than", "7", none⟩
        ⟨1, none, none, none, none, none⟩ = .ok (false, 0) ∧
    check_date_condition (fun _ => 0) 0 "less_than" "abc" "days" (some 0) =
      .ok (false, 0) :=
  ⟨claim_C5.1 (fun _ => 0) 0 "less_than" "7" none 1 none none none none,
    claim_C5.2 (fun _ => 0) 0 "less_than" "abc" "days" 0 (by decide)⟩

/-- Claim C6 (confirmed): for every date condition with unit `months`, the
elapsed time is the whole-day difference between `now` and `received_date`,
integer-divided by 30 (a 30-day approximation, not calendar months), compared
strictly (`less_than` is `<`, `greater_than` is `>`); in particular with
elapsed 59 days and value 2 under `less_than` the condition matches
(`59 / 30 = 1 < 2`), and with elapsed 60 days it does not
(`60 / 30 = 2`, and `2 < 2` is false). -/
theorem claim_C6 :
    (∀ (clock : Nat → Int) (k : Nat) (v : String) (n d : Int),
      pyInt? v = some n →
      check_date_condition clock k "less_than" v "months" (some d) =
        .ok (decide (Int.fdiv (Int.fdiv (clock k - d) 86400) 30 < n), k + 1) ∧
      check_date_condition clock k "greater_than" v "months" (some d) =
        .ok (decide (Int.fdiv (Int.fdiv (clock k - d) 86400) 30 > n), k + 1)) ∧
    check_date_condition (fun _ => 59 * 86400) 0 "less_than" "2" "months"
      (some 0) = .ok (true, 1) ∧
    check_date_condition (fun _ => 60 * 86400) 0 "less_than" "2" "months"
      (some 0) = .ok (false, 1) := by
  refine ⟨?_, by decide, by decide⟩
  intro clock k v n d hv
  constructor <;> (unfold check_date_condition; rw [hv]; rfl)

/-- Claim C6, witness: the general months formula applied at value `"2"`,
`received_date` 0 and a clock fixed at instant 0 (elapsed 0 days). -/
theorem claim_C6_witness :
    check_date_condition (fun _ => 0) 0 "less_than" "2" "months" (some 0) =
      .ok (decide (Int.fdiv (Int.fdiv ((fun _ : Nat => (0 : Int)) 0 - 0) 86400) 30 < 2),
        0 + 1) ∧
    check_date_condition (fun _ => 0) 0 "greater_than" "2" "months" (some 0) =
      .ok (decide (Int.fdiv (Int.fdiv ((fun _ : Nat => (0 : Int)) 0 - 0) 86400) 30 > 2),
        0 + 1) :=
  claim_C6.1 (fun _ => 0) 0 "2" 2 0 (by decide)

/-- Claim C7 (confirmed): for every message and every clock state, a rule with
combinator `all` and an empty condition list matches the message (vacuously
true), and a rule with combinator `any` and an empty condition list does not
match it (vacuously false). -/
theorem claim_C7 (clock : Nat → Int) (k : Nat) (email : Email) (i : String)
    (acts : List Action) :
    rule_applies clock k ⟨i, "all", [], acts⟩ email = .ok (true, k) ∧
    rule_applies clock k ⟨i, "any", [], acts⟩ email = .ok (false, k) :=
  ⟨rfl, rfl⟩

/-- Claim C9 (confirmed): calling `evaluate_emails` with `email_ids` equal to
the empty list skips the identifier filter (Python truthiness of `if
email_ids:`), so every stored email is evaluated — identical behaviour to
passing `None`, not "evaluate no messages". -/
theorem claim_C9 (clock : Nat → Int) (rules : List Rule) (db : List Email) :
    select_emails (some []) db = db ∧
    evaluate_emails clock rules (some []) db =
      evaluate_emails clock rules none db :=
  ⟨rfl, rfl⟩

/-- Claim C8 (confirmed): string conditions on the fields `from`, `to`,
`subject` and `message` are case-insensitive — both the condition value and
the message field value are lower-cased before comparing, with a substring
test for `contains`/`does_not_contain` and full-string equality for
`equals`/`does_not_equal`; each of the four fields routes its stored value
into this comparison, and e.g. subject `"Hello"` matches a condition
`contains "hello"`. -/
theorem claim_C8 :
    (∀ (v fv : String), string_predicate "contains" v (some fv) =
      .ok (pyIn (lowerStr v) (lowerStr fv))) ∧
    (∀ (v fv : String), string_predicate "does_not_contain" v (some fv) =
      .ok (!pyIn (lowerStr v) (lowerStr fv))) ∧
    (∀ (v fv : String), string_predicate "equals" v (some fv) =
      .ok (lowerStr v == lowerStr fv)) ∧
    (∀ (v fv : String), string_predicate "does_not_equal" v (some fv) =
      .ok (!(lowerStr v == lowerStr fv))) ∧
    (∀ (clock : Nat → Int) (k : Nat) (p v : String) (u : Option String)
        (email : Email),
      condition_matches clock k ⟨"from", p, v, u⟩ email =
        (string_predicate (lowerStr p) v email.from_address).map
          (fun b => (b, k)) ∧
      condition_matches clock k ⟨"to", p, v, u⟩ email =
        (string_predicate (lowerStr p) v email.to_address).map
          (fun b => (b, k)) ∧
      condition_matches clock k ⟨"subject", p, v, u⟩ email =
        (string_predicate (lowerStr p) v email.subject).map
          (fun b => (b, k)) ∧
      condition_matches clock k ⟨"message", p, v, u⟩ email =
        (string_predicate (lowerStr p) v (some (email.body_text.getD ""))).map
          (fun b => (b, k))) ∧
    condition_matches (fun _ => 0) 0 ⟨"subject", "contains", "hello", none⟩
      ⟨1, none, none, some "Hello", none, none⟩ = .ok (true, 0) := by
  refine ⟨fun v fv => rfl, fun v fv => rfl, fun v fv => rfl, fun v fv => rfl,
    fun clock k p v u email => ⟨rfl, rfl, rfl, rfl⟩, ?_⟩
  decide

/-- Claim C10 (confirmed): only the `message` field treats an absent stored
value as the empty string; for string conditions on `from`, `to` or `subject`
the stored value is lower-cased without a null guard, so matching is total
only when those values are present — with an absent (`None`) `from`, `to` or
`subject` value, a recognised string predicate reaches the error branch
(`AttributeError` from lower-casing `None`). -/
theorem claim_C10 :
    (∀ (clock : Nat → Int) (k : Nat) (p v : String) (u : Option String)
        (i : Int) (f t s : Option String) (rd : Option Int),
      condition_matches clock k ⟨"message", p, v, u⟩ ⟨i, f, t, s, none, rd⟩ =
        (string_predicate (lowerStr p) v (some "")).map (fun b => (b, k))) ∧
    condition_matches (fun _ => 0) 0 ⟨"from", "contains", "x", none⟩
        ⟨1, none, some "b", some "c", some "d", none⟩ =
      .error (.attributeError "NoneType object has no attribute lower") ∧
    condition_matches (fun _ => 0) 0 ⟨"to", "equals", "x", none⟩
        ⟨1, some "a", none, some "c", some "d", none⟩ =
      .error (.attributeError "NoneType object has no attribute lower") ∧
    condition_matches (fun _ => 0) 0 ⟨"subject", "contains", "x", none⟩
        ⟨1, some "a", some "b", none, some "d", none⟩ =
      .error (.attributeError "NoneType object has no attribute lower") ∧
    condition_matches (fun _ => 0) 0 ⟨"message", "contains", "x", none⟩
        ⟨1, none, none, none, none, none⟩ = .ok (false, 0) :=
  ⟨fun clock k p v u i f t s rd => rfl, rfl, rfl, rfl, by decide⟩

/-- Claim C3, counterexample: a rule containing a date condition whose
predicate `"bogus"` is outside `{less_than, greater_than}` does *not* raise a
`ValueError` when its comparison value is not an integer — the date comparator
returns false before validating the predicate, so the rule silently fails to
match and evaluation completes normally. -/
theorem claim_C3_counterexample :
    ("bogus" ≠ "less_than" ∧ "bogus" ≠ "greater_than") ∧
    rule_applies (fun _ => 0) 0
        ⟨"R1", "all", [⟨"received_date", "bogus", "abc", none⟩],
          [⟨"mark_as_read", none⟩]⟩
        ⟨1, none, none, none, some "b", some 0⟩ = .ok (false, 0) ∧
    evaluate_emails (fun _ => 0)
        [⟨"R1", "all", [⟨"received_date", "bogus", "abc", none⟩],
          [⟨"mark_as_read", none⟩]⟩]
        none [⟨1, none, none, none, some "b", some 0⟩] = .ok ([], 0) :=
  ⟨⟨by decide, by decide⟩, rfl, rfl⟩

/-- Claim C3, amended: unrecognised enumeration values raise a hard
`ValueError` that aborts evaluation, *provided the offending value is actually
reached*: an unknown combinator always raises; an unknown field or an unknown
string predicate raises whenever the condition itself is evaluated; an unknown
unit or unknown date predicate raises only when `received_date` is present and
the comparison value parses as an integer (otherwise the date condition
silently evaluates to false); and a condition skipped by the short-circuiting
of `all` (after a false condition) or `any` (after a true condition) is never
evaluated, so it raises nothing. -/
theorem claim_C3_amended :
    (∀ (clock : Nat → Int) (k : Nat) (rule : Rule) (email : Email),
      rule.predicate ≠ "all" → rule.predicate ≠ "any" →
      rule_applies clock k rule email =
        .error (.valueError ("Unknown predicate: " ++ rule.predicate))) ∧
    (∀ (clock : Nat → Int) (k : Nat) (cond : Condition) (email : Email),
      lowerStr cond.field ≠ "from" → lowerStr cond.field ≠ "to" →
      lowerStr cond.field ≠ "subject" → lowerStr cond.field ≠ "message" →
      lowerStr cond.field ≠ "received_date" →
      condition_matches clock k cond email =
        .error (.valueError ("Unknown field: " ++ lowerStr cond.field))) ∧
    (∀ (p v : String) (fv : Option String),
      p ≠ "contains" → p ≠ "does_not_contain" → p ≠ "equals" →
      p ≠ "does_not_equal" →
      string_predicate p v fv =
        .error (.valueError ("Unknown predicate: " ++ p))) ∧
    (∀ (clock : Nat → Int) (k : Nat) (p v u : String) (d n : Int),
      pyInt? v = some n → u ≠ "days" → u ≠ "months" →
      check_date_condition clock k p v u (some d) =
        .error (.valueError ("Unknown unit: " ++ u))) ∧
    (∀ (clock : Nat → Int) (k : Nat) (p v : String) (d n : Int),
      pyInt? v = some n → p ≠ "less_than" → p ≠ "greater_than" →
      check_date_condition clock k p v "days" (some d) =
        .error (.valueError ("Unknown date predicate: " ++ p)) ∧
      check_date_condition clock k p v "months" (some d) =
        .error (.valueError ("Unknown date predicate: " ++ p))) ∧
    (∀ (clock : Nat → Int) (email : Email) (c : Condition)
        (cs : List Condition) (k k' : Nat),
      condition_matches clock k c email = .ok (false, k') →
      all_conditions clock email (c :: cs) k = .ok (false, k')) ∧
    (∀ (clock : Nat → Int) (email : Email) (c : Condition)
        (cs : List Condition) (k k' : Nat),
      condition_matches clock k c email = .ok (true, k') →
      any_conditions clock email (c :: cs) k = .ok (true, k')) := by
  refine ⟨?_, ?_, ?_, ?_, ?_, ?_, ?_⟩
  · intro clock k rule email h1 h2
    simp [rule_applies, h1, h2]
  · intro clock k cond email h1 h2 h3 h4 h5
    unfold condition_matches
    dsimp only
    simp [h1, h2, h3, h4, h5]
  · intro p v fv h1 h2 h3 h4
    simp [string_predicate, h1, h2, h3, h4]
  · intro clock k p v u d n hv h1 h2
    unfold check_date_condition
    rw [hv]
    simp [h1, h2]
  · intro clock k p v d n hv h1 h2
    constructor <;> (unfold check_date_condition; rw [hv]; simp [h1, h2])
  · intro clock email c cs k k' h
    simp [all_conditions, h]
  · intro clock email c cs k k' h
    simp [any_conditions, h]

/-- Claim C3, witness: the amended claim instantiated at concrete unknown
values — combinator `"some"`, field `"cc"`, string predicate `"matches"`,
unit `"weeks"`, date predicate `"equals"` — and at a concrete short-circuit:
an `all` rule whose first condition is false never evaluates its second
condition. -/
theorem claim_C3_witness :
    rule_applies (fun _ => 0) 0 ⟨"R1", "some", [], []⟩
        ⟨1, none, none, none, none, none⟩ =
      .error (.valueError ("Unknown predicate: " ++ "some")) ∧
    condition_matches (fun _ => 0) 0 ⟨"cc", "contains", "x", none⟩
        ⟨1, none, none, none, none, none⟩ =
      .error (.valueError ("Unknown field: " ++
        lowerStr (Condition.field ⟨"cc", "contains", "x", none⟩))) ∧
    string_predicate "matches" "x" (some "y") =
      .error (.valueError ("Unknown predicate: " ++ "matches")) ∧
    check_date_condition (fun _ => 0) 0 "less_than" "7" "weeks" (some 0) =
      .error (.valueError ("Unknown unit: " ++ "weeks")) ∧
    check_date_condition (fun _ => 0) 0 "equals" "7" "days" (some 0) =
      .error (.valueError ("Unknown date predicate: " ++ "equals")) ∧
    all_conditions (fun _ => 0) ⟨1, none, none, none, some "b", none⟩
        [⟨"message", "contains", "x", none⟩, ⟨"cc", "contains", "x", none⟩] 0 =
      .ok (false, 0) :=
  ⟨claim_C3_amended.1 (fun _ => 0) 0 ⟨"R1", "some", [], []⟩
      ⟨1, none, none, none, none, none⟩ (by decide) (by decide),
    claim_C3_amended.2.1 (fun _ => 0) 0 ⟨"cc", "contains", "x", none⟩
      ⟨1, none, none, none, none, none⟩ (by decide) (by decide) (by decide)
      (by decide) (by decide),
    claim_C3_amended.2.2.1 "matches" "x" (some "y") (by decide) (by decide)
      (by decide) (by decide),
    claim_C3_amended.2.2.2.1 (fun _ => 0) 0 "less_than" "7" "weeks" 0 7
      (by decide) (by decide) (by decide),
    (claim_C3_amended.2.2.2.2.1 (fun _ => 0) 0 "equals" "7" 0 7 (by decide)
      (by decide) (by decide)).1,
    claim_C3_amended.2.2.2.2.2.1 (fun _ => 0)
      ⟨1, none, none, none, some "b", none⟩ ⟨"message", "contains", "x", none⟩
      [⟨"cc", "contains", "x", none⟩] 0 0 (by decide)⟩

/-- Claim C1, amended: the engine reads the clock at each date-condition check
rather than once per call, so different checks of one run may observe
different instants; but whenever the clock does not advance during the call
(a constant clock), `evaluate_emails` computes exactly the action plan of the
spec's once-per-run semantics, in which every date condition of every rule on
every message is compared against the same single instant. -/
theorem claim_C1_amended (t : Int) (rules : List Rule) (ids : Option (List Int))
    (db : List Email) :
    ∃ k', evaluate_emails (fun _ => t) rules ids db =
      (evaluate_emails_at t rules ids db).map (fun plan => (plan, k')) :=
  evaluate_loop_const t rules (select_emails ids db) 0

end GmailRules
